import Mathlib

/-!
Verification development for the claude-skills-factory-frontend repository.

The TypeScript source is shallowly embedded as Lean definitions:

* JavaScript string primitives (`trim`, `split(',')`, char classes, ASCII
  lowercasing) are modelled on `List Char` with thin `String` wrappers.
* The pure validation and normalization functions of
  `src/pages/SkillCreatorPage.tsx` (`formatSkillName`, `validateSkillName`,
  `validateContent`, `validateTags`) are transcribed directly.
* Each async handler (`handleAnalyze`, `handleGenerateSkill`, the publish
  modal's `handleSubmit` composed with the library page's `handlePublish`,
  and the library page's `loadSkills`) is embedded as a function from the
  pre-call component state and the outcome of its single awaited external
  call to the post-call state, paired with the request it issued (`none`
  when the handler returned before calling the collaborator).  For
  `loadSkills` the suspension point is kept explicit (`loadSkillsBegin` /
  `loadSkillsResolve`) so that interleavings of overlapping fetches can be
  stated.
* Button-level triggering is modelled by `trigger*` functions that compose
  each handler with its button's `disabled` expression: a disabled button
  never fires its `onClick`, so a disabled trigger is the identity and
  issues no request.
-/

namespace SkillsFactory

/-! ## JavaScript string primitives -/

/-- Whitespace recognised by the model of `String.prototype.trim`
(ASCII space, tab, newline, carriage return, vertical tab, form feed). -/
def isJsWhitespace (c : Char) : Bool :=
  decide (c = ' ' ∨ c = '\t' ∨ c = '\n' ∨ c = '\r' ∨ c = '\x0b' ∨ c = '\x0c')

/-- Model of `String.prototype.trim` on the character list: drop whitespace from
both ends. -/
def trimList (l : List Char) : List Char :=
  ((l.dropWhile isJsWhitespace).reverse.dropWhile isJsWhitespace).reverse

/-- Model of JavaScript `s.trim()`. -/
def jsTrim (s : String) : String := ⟨trimList s.data⟩

/-- Model of `String.prototype.split(',')` on the character list.  JavaScript's
split never returns an empty list: `"".split(',')` is `[""]`. -/
def splitCommaList : List Char → List (List Char)
  | [] => [[]]
  | c :: rest =>
    match splitCommaList rest with
    | [] => [[c]]
    | h :: t => if c = ',' then [] :: h :: t else (c :: h) :: t

/-- Model of JavaScript `s.split(',')`. -/
def jsSplitComma (s : String) : List String :=
  (splitCommaList s.data).map (fun l => ⟨l⟩)

/-- Character class `[a-z0-9-]` of the skill-name format. -/
def isNameChar (c : Char) : Bool :=
  decide (('a' ≤ c ∧ c ≤ 'z') ∨ ('0' ≤ c ∧ c ≤ '9') ∨ c = '-')

/-- Character class `[a-z0-9-]` with the `i` flag, i.e. `[a-zA-Z0-9-]`,
used by the tag validator. -/
def isTagChar (c : Char) : Bool :=
  decide (('a' ≤ c ∧ c ≤ 'z') ∨ ('A' ≤ c ∧ c ≤ 'Z') ∨ ('0' ≤ c ∧ c ≤ '9') ∨ c = '-')

/-- ASCII model of JavaScript `toLowerCase` on one character. -/
def jsToLowerChar (c : Char) : Char :=
  if 'A' ≤ c ∧ c ≤ 'Z' then Char.ofNat (c.toNat + 32) else c

/-- Model of the JavaScript falsy-string fallback `a || b`. -/
def orFallback (a b : String) : String := if a = "" then b else a

/-! ## SkillNameNormalizer: `formatSkillName` (SkillCreatorPage.tsx 27-33)

`name.toLowerCase().replace(/[^a-z0-9-]/g, '-').replace(/[-]+/g, '-')
.replace(/^-|-$/g, '')`.  The last regex deletes at most one leading and
one trailing hyphen, modelled as `stripLead` then `stripTrail`. -/

/-- The step `replace(/[^a-z0-9-]/g, '-')` on one character. -/
def replaceNonNameChar (c : Char) : Char := if isNameChar c then c else '-'

/-- The step `replace(/[-]+/g, '-')`: collapse each run of hyphens to a single
hyphen. -/
def collapseHyphens : List Char → List Char
  | [] => []
  | [c] => [c]
  | c₁ :: c₂ :: rest =>
    if c₁ = '-' ∧ c₂ = '-' then collapseHyphens (c₂ :: rest)
    else c₁ :: collapseHyphens (c₂ :: rest)

/-- Remove one leading hyphen (the `^-` alternative of the final regex). -/
def stripLead (l : List Char) : List Char :=
  match l with
  | [] => []
  | c :: rest => if c = '-' then rest else c :: rest

/-- Remove one trailing hyphen (the `-$` alternative of the final regex). -/
def stripTrail (l : List Char) : List Char :=
  (stripLead l.reverse).reverse

/-- The full `formatSkillName` pipeline on a character list. -/
def formatList (l : List Char) : List Char :=
  stripTrail (stripLead (collapseHyphens (l.map (fun c => replaceNonNameChar (jsToLowerChar c)))))

/-- Transcription of `formatSkillName`, SkillCreatorPage.tsx lines 27-33. -/
def formatSkillName (s : String) : String := ⟨formatList s.data⟩

/-- No doubled hyphens: no two adjacent characters are both `'-'`. -/
def noDoubleHyphen (l : List Char) : Prop :=
  List.Chain' (fun a b => ¬(a = '-' ∧ b = '-')) l

instance noDoubleHyphen.decide (l : List Char) : Decidable (noDoubleHyphen l) := by
  unfold noDoubleHyphen
  infer_instance

/-! ## ValidationEngine (SkillCreatorPage.tsx 36-68) -/

/-- The test `/^[a-z0-9-]+$/.test(t)`: nonempty and every character in class. -/
def nameFormatOk (t : String) : Bool :=
  !t.data.isEmpty && t.data.all isNameChar

/-- The test `/^[a-z0-9-]+$/i.test(t)`. -/
def tagFormatOk (t : String) : Bool :=
  !t.data.isEmpty && t.data.all isTagChar

/-- Transcription of `validateSkillName`, SkillCreatorPage.tsx lines 36-48. -/
def validateSkillName (name : String) : Option String :=
  if jsTrim name = "" then some "Skill name is required"
  else if (jsTrim name).length < 3 then some "Skill name must be at least 3 characters"
  else if nameFormatOk (jsTrim name) then none
  else some "Skill name must be lowercase with hyphens only (e.g., self-iterating-documentation-agent)"

/-- Transcription of `validateContent`, SkillCreatorPage.tsx lines 50-58. -/
def validateContent (content : String) : Option String :=
  if jsTrim content = "" then some "Content is required"
  else if (jsTrim content).length < 100 then
    some ("Content must be at least 100 characters (currently " ++ toString (jsTrim content).length ++ ")")
  else none

/-- Model of `join(', ')` used for the invalid-tags message. -/
def joinCommaSpace : List String → String
  | [] => ""
  | [x] => x
  | x :: y :: rest => x ++ ", " ++ joinCommaSpace (y :: rest)

/-- The list `tags.split(',').map(t => t.trim()).filter(t => t.length > 0)` —
the entry list the tag validator inspects. -/
def tagEntries (tags : String) : List String :=
  (((jsSplitComma tags).map jsTrim).filter (fun t => t.length != 0))

/-- Transcription of `validateTags`, SkillCreatorPage.tsx lines 60-68. -/
def validateTags (tags : String) : Option String :=
  if jsTrim tags = "" then none
  else
    let invalidTags := (tagEntries tags).filter (fun t => !tagFormatOk t)
    if invalidTags.isEmpty then none
    else some ("Invalid tags: " ++ joinCommaSpace invalidTags ++ ". Use alphanumeric characters and hyphens only.")

/-! ## WorkflowController state (SkillCreatorPage.tsx 6-17) -/

inductive ContentType where
  | copywriting
  | process
  | technical
  deriving DecidableEq

/-- The three keys the creator page ever writes into its
`validationErrors` record. -/
structure FieldErrors where
  content : String
  skillName : String
  tags : String
  deriving DecidableEq

/-- The write `setValidationErrors(\x7b\x7d)` — the empty record. -/
def FieldErrors.empty : FieldErrors := ⟨"", "", ""⟩

/-- The part of an `AnalysisResult` the creator-page logic reads. -/
structure AnalysisResult where
  analysisId : String
  deriving DecidableEq

/-- The `useState` fields of `SkillCreatorPage`. -/
structure CreatorState where
  content : String
  contentType : ContentType
  isAnalyzing : Bool
  isGenerating : Bool
  analysisResult : Option AnalysisResult
  skillName : String
  description : String
  tags : String
  error : String
  success : String
  validationErrors : FieldErrors
  deriving DecidableEq

/-- Derived UI stage (SkillCreatorPage.tsx line 208):
`analysisResult ? (isGenerating ? generating : success ? complete :
preview) : input`. -/
inductive Step where
  | input
  | preview
  | generating
  | complete
  deriving DecidableEq

def currentStep (st : CreatorState) : Step :=
  match st.analysisResult with
  | some _ => if st.isGenerating then .generating else if st.success = "" then .preview else .complete
  | none => .input

/-! ## handleAnalyze (SkillCreatorPage.tsx 99-133) -/

/-- The fields of an axios error object the page reads; an empty string
models a falsy/absent message (JavaScript `a || b`). -/
structure AxiosErr where
  dataMessage : String
  errMessage : String
  status : Option Nat
  deriving DecidableEq

inductive AnalyzeOutcome where
  | ok (result : AnalysisResult)
  | err (e : AxiosErr)
  deriving DecidableEq

structure AnalyzeRequest where
  content : String
  contentType : ContentType
  deriving DecidableEq

/-- With `VITE_API_URL` unset: the default base URL. -/
def apiUrlDefault : String := "http://localhost:3001/api"

/-- The diagnostic `setError` message built in the catch of
`handleAnalyze` (lines 118-129). -/
def analyzeErrorText (e : AxiosErr) : String :=
  orFallback e.dataMessage (orFallback e.errMessage "Analysis failed") ++ "\n\n" ++
    "Backend URL: " ++ apiUrlDefault ++ "\n" ++
    "Error details: " ++ (match e.status with
      | some n => "HTTP " ++ toString n
      | none => "Connection error") ++ "\n" ++
    "Please check:\n" ++
    "1. Backend is running on Railway\n" ++
    "2. VITE_API_URL is set correctly in Vercel\n" ++
    "3. Backend has CLAUDE_API_KEY configured\n" ++
    "4. Backend has FRONTEND_URL set for CORS"

/-- Transcription of `handleAnalyze`: pre-call validation gate, the request it issues (if
any), and the state after its awaited call resolves with `outcome`. -/
def handleAnalyze (st : CreatorState) (outcome : AnalyzeOutcome) :
    CreatorState × Option AnalyzeRequest :=
  match validateContent st.content with
  | some contentError =>
    ({ st with error := contentError,
               validationErrors := { st.validationErrors with content := contentError } }, none)
  | none =>
    let st1 := { st with isAnalyzing := true, error := "",
                         validationErrors := FieldErrors.empty, analysisResult := none }
    match outcome with
    | .ok result =>
      ({ st1 with analysisResult := some result, error := "", isAnalyzing := false },
        some ⟨st.content, st.contentType⟩)
    | .err e =>
      ({ st1 with error := analyzeErrorText e, isAnalyzing := false },
        some ⟨st.content, st.contentType⟩)

/-! ## handleGenerateSkill (SkillCreatorPage.tsx 135-179) -/

structure GenerateRequest where
  analysisId : String
  skillName : String
  skillType : ContentType
  description : Option String
  tags : Option (List String)
  deriving DecidableEq

/-- The field of the generate response the page reads. -/
structure GenResult where
  skillName : String
  deriving DecidableEq

inductive GenerateOutcome where
  | ok (result : GenResult)
  | err (dataMessage : String)
  deriving DecidableEq

/-- The expression `tags ? tags.split(',').map(t => t.trim()) : undefined` — the tag
sequence put into the generate request (line 162).  Note: unlike
`tagEntries` it does not discard empty entries. -/
def transmittedTags (tags : String) : Option (List String) :=
  if tags = "" then none
  else some ((jsSplitComma tags).map jsTrim)

def handleGenerateSkill (st : CreatorState) (outcome : GenerateOutcome) :
    CreatorState × Option GenerateRequest :=
  match st.analysisResult with
  | none => (st, none)
  | some analysis =>
    match validateSkillName st.skillName with
    | some skillNameError =>
      ({ st with error := skillNameError,
                 validationErrors := { st.validationErrors with skillName := skillNameError } }, none)
    | none =>
      match validateTags st.tags with
      | some tagsError =>
        ({ st with error := tagsError,
                   validationErrors := { st.validationErrors with tags := tagsError } }, none)
      | none =>
        let st1 := { st with isGenerating := true, error := "",
                             validationErrors := FieldErrors.empty }
        let req : GenerateRequest :=
          { analysisId := analysis.analysisId,
            skillName := jsTrim st.skillName,
            skillType := st.contentType,
            description := if st.description = "" then none else some st.description,
            tags := transmittedTags st.tags }
        match outcome with
        | .ok result =>
          ({ st1 with
              success := "Skill \"" ++ result.skillName ++ "\" created successfully! Click to view in library.",
              content := "",
              contentType := .process,
              analysisResult := none,
              skillName := "",
              description := "",
              tags := "",
              validationErrors := FieldErrors.empty,
              isGenerating := false }, some req)
        | .err m =>
          ({ st1 with error := orFallback m "Skill generation failed",
                      isGenerating := false }, some req)

/-! ## Button gating (SkillCreatorPage.tsx 313, 406)

A disabled button never fires `onClick`, so triggering an action is the
composition of the button's `disabled` expression with the handler. -/

/-- The gate `disabled=\x7bisAnalyzing || !content.trim() || content.trim().length
< 100 || !!validationErrors.content\x7d` (line 313). -/
def analyzeDisabled (st : CreatorState) : Bool :=
  st.isAnalyzing || decide (jsTrim st.content = "") ||
    decide ((jsTrim st.content).length < 100) || decide (st.validationErrors.content ≠ "")

/-- The gate `disabled=\x7bisGenerating || !skillName.trim() ||
!!validationErrors.skillName || !!validationErrors.tags\x7d` (line 406). -/
def generateDisabled (st : CreatorState) : Bool :=
  st.isGenerating || decide (jsTrim st.skillName = "") ||
    decide (st.validationErrors.skillName ≠ "") || decide (st.validationErrors.tags ≠ "")

def triggerAnalyze (st : CreatorState) (outcome : AnalyzeOutcome) :
    CreatorState × Option AnalyzeRequest :=
  if analyzeDisabled st then (st, none) else handleAnalyze st outcome

def triggerGenerate (st : CreatorState) (outcome : GenerateOutcome) :
    CreatorState × Option GenerateRequest :=
  if generateDisabled st then (st, none) else handleGenerateSkill st outcome

/-! ## PublishCoordinator (GitHubPublishModal.tsx + SkillLibraryPage.tsx)

`handleSubmit` (modal lines 24-32) awaits `onPublish`, which is the
library page's `handlePublish` (lines 61-77).  `handlePublish` wraps its
external call in try/catch/finally and never rethrows, so the modal's
`await onPublish(...)` always resolves and `setGithubToken('')` always
runs after the external call resolves, on success and on failure alike.
The two handlers are embedded as one composed step; `isPublishing` is
`true` only while the call is in flight, so the post-state records its
final value `false`.  The success path's `await loadSkills()` refresh
touches only the library list, which the library model below owns. -/

structure PublishFlowState where
  githubToken : String
  isPrivate : Bool
  publishModalOpen : Bool
  selectedSkillId : Option Nat
  isPublishing : Bool
  notification : Option (Bool × String)
  alertMessage : Option String
  deriving DecidableEq

structure PublishRequest where
  skillId : Nat
  githubToken : String
  isPrivate : Bool
  deriving DecidableEq

inductive PublishOutcome where
  | ok
  | err (dataMessage : String)
  deriving DecidableEq

/-- Modal `handleSubmit` composed with the page's `handlePublish`. -/
def handleSubmit (st : PublishFlowState) (outcome : PublishOutcome) :
    PublishFlowState × Option PublishRequest :=
  if jsTrim st.githubToken = "" then
    ({ st with alertMessage := some "Please enter a GitHub personal access token" }, none)
  else
    match st.selectedSkillId with
    | none => ({ st with githubToken := "" }, none)
    | some skillId =>
      match outcome with
      | .ok =>
        ({ st with notification := some (true, "Successfully published to GitHub!"),
                   publishModalOpen := false,
                   isPublishing := false,
                   githubToken := "" },
          some ⟨skillId, jsTrim st.githubToken, st.isPrivate⟩)
      | .err m =>
        ({ st with notification := some (false, orFallback m "Failed to publish skill to GitHub"),
                   isPublishing := false,
                   githubToken := "" },
          some ⟨skillId, jsTrim st.githubToken, st.isPrivate⟩)

/-- Modal `handleClose` (lines 34-37) composed with the page's `onClose`
(SkillLibraryPage.tsx lines 117-120). -/
def handleCloseModal (st : PublishFlowState) : PublishFlowState :=
  { st with githubToken := "", publishModalOpen := false, selectedSkillId := none }

/-- Submit-button gate: `disabled=\x7bisPublishing ||
!githubToken.trim()\x7d` (GitHubPublishModal.tsx line 129). -/
def publishSubmitDisabled (st : PublishFlowState) : Bool :=
  st.isPublishing || decide (jsTrim st.githubToken = "")

def triggerPublishSubmit (st : PublishFlowState) (outcome : PublishOutcome) :
    PublishFlowState × Option PublishRequest :=
  if publishSubmitDisabled st then (st, none) else handleSubmit st outcome

/-! ## LibraryQueryService (SkillLibraryPage.tsx 7-34)

`loadSkills` reads `search`/`filterType`, sets `loading`, awaits
`getSkills` and stores the response.  The await is the suspension point:
`loadSkillsBegin` is the synchronous prefix together with the query the
fetch captured, `loadSkillsResolve` is the continuation run when that
fetch's response arrives.  Skills are represented by their ids. -/

structure SkillsQuery where
  search : Option String
  type : Option ContentType
  deriving DecidableEq

/-- Here `filterType` is `ContentType | 'all'`; `none` models `'all'`. -/
structure LibraryState where
  skills : List Nat
  loading : Bool
  search : String
  filterType : Option ContentType
  deriving DecidableEq

/-- The params `\x7bsearch: search || undefined, type: filterType !== 'all' ?
filterType : undefined\x7d` (lines 24-27). -/
def skillsQueryOf (st : LibraryState) : SkillsQuery :=
  { search := if st.search = "" then none else some st.search,
    type := st.filterType }

def loadSkillsBegin (st : LibraryState) : LibraryState × SkillsQuery :=
  ({ st with loading := true }, skillsQueryOf st)

/-- The continuation `setSkills(response.skills)` then (finally) `setLoading(false)`. -/
def loadSkillsResolve (st : LibraryState) (response : List Nat) : LibraryState :=
  { st with skills := response, loading := false }

/-- The search input's `onChange` (line 147). -/
def setSearch (st : LibraryState) (s : String) : LibraryState :=
  { st with search := s }

/-- A concrete storage collaborator used to exhibit executions: the
result list for a query identifies the search term it was asked for. -/
def fetchStub (q : SkillsQuery) : List Nat :=
  if q.search = some "ab" then [2] else [1]

/-! ## Concrete states used by the executions below -/

/-- A 100-character content string: passes `validateContent`. -/
def longContent : String := ⟨List.replicate 100 'x'⟩

/-- A reachable analyzed/preview state: an analysis is stored, nothing
is in flight, the name field is valid, no success message yet. -/
def c2PreviewState : CreatorState :=
  { content := longContent, contentType := .process, isAnalyzing := false,
    isGenerating := false, analysisResult := some ⟨"a-1"⟩, skillName := "my-skill",
    description := "", tags := "", error := "", success := "",
    validationErrors := FieldErrors.empty }

/-- A state whose generate guards all pass. -/
def c2GenFailState : CreatorState :=
  { content := longContent, contentType := .process, isAnalyzing := false,
    isGenerating := false, analysisResult := some ⟨"a-2"⟩, skillName := "my-skill",
    description := "", tags := "docs", error := "", success := "",
    validationErrors := FieldErrors.empty }

def c3StateA : CreatorState :=
  { content := longContent, contentType := .process, isAnalyzing := true,
    isGenerating := false, analysisResult := none, skillName := "",
    description := "", tags := "", error := "", success := "",
    validationErrors := FieldErrors.empty }

def c3StateG : CreatorState :=
  { content := longContent, contentType := .process, isAnalyzing := false,
    isGenerating := true, analysisResult := some ⟨"a-3"⟩, skillName := "my-skill",
    description := "", tags := "", error := "", success := "",
    validationErrors := FieldErrors.empty }

def c3StateP : PublishFlowState :=
  { githubToken := "tok", isPrivate := true, publishModalOpen := true,
    selectedSkillId := some 1, isPublishing := true, notification := none,
    alertMessage := none }

def c5State : CreatorState :=
  { content := "leftover", contentType := .technical, isAnalyzing := false,
    isGenerating := false, analysisResult := some ⟨"a-5"⟩, skillName := "demo-skill",
    description := "a demo", tags := "docs, api", error := "", success := "",
    validationErrors := FieldErrors.empty }

def c6State : CreatorState :=
  { content := "kept-content", contentType := .copywriting, isAnalyzing := false,
    isGenerating := false, analysisResult := some ⟨"a-6"⟩, skillName := "kept-name",
    description := "kept-desc", tags := "kept-tag", error := "", success := "",
    validationErrors := FieldErrors.empty }

def c8State : PublishFlowState :=
  { githubToken := "   ", isPrivate := true, publishModalOpen := true,
    selectedSkillId := some 7, isPublishing := false, notification := none,
    alertMessage := none }

def c9State : PublishFlowState :=
  { githubToken := "ghp-secret", isPrivate := false, publishModalOpen := true,
    selectedSkillId := some 9, isPublishing := false, notification := none,
    alertMessage := none }

def c10State : CreatorState :=
  { content := "", contentType := .process, isAnalyzing := false,
    isGenerating := false, analysisResult := some ⟨"a-10"⟩, skillName := "my-skill",
    description := "", tags := "docs,", error := "", success := "",
    validationErrors := FieldErrors.empty }

/-- The interleaving of claim C1: a fetch for search term `a` is begun,
the user edits the term to `ab`, a second fetch is begun and resolves,
then the first (stale) fetch resolves last. -/
def c1State0 : LibraryState :=
  { skills := [], loading := false, search := "a", filterType := none }

def c1StaleQuery : SkillsQuery := (loadSkillsBegin c1State0).2

def c1AfterEdit : LibraryState := setSearch (loadSkillsBegin c1State0).1 "ab"

def c1FreshQuery : SkillsQuery := (loadSkillsBegin c1AfterEdit).2

def c1FinalState : LibraryState :=
  loadSkillsResolve
    (loadSkillsResolve (loadSkillsBegin c1AfterEdit).1 (fetchStub c1FreshQuery))
    (fetchStub c1StaleQuery)

/-! ## Lemmas about the normalizer -/

theorem isNameChar_replaceNonNameChar (c : Char) : isNameChar (replaceNonNameChar c) = true := by
  unfold replaceNonNameChar
  by_cases h : isNameChar c = true
  · simp [h]
  · simp [h]
    decide

theorem jsToLowerChar_fix {c : Char} (h : isNameChar c = true) : jsToLowerChar c = c := by
  unfold jsToLowerChar
  rw [if_neg]
  rintro ⟨h1, h2⟩
  unfold isNameChar at h
  rw [decide_eq_true_eq] at h
  rcases h with ⟨ha, _⟩ | ⟨_, h9⟩ | hc
  · exact absurd (le_trans ha h2) (by decide)
  · exact absurd (le_trans h1 h9) (by decide)
  · rw [hc] at h1
    exact absurd h1 (by decide)

theorem replaceNonNameChar_fix {c : Char} (h : isNameChar c = true) : replaceNonNameChar c = c := by
  unfold replaceNonNameChar
  simp [h]

theorem map_fix (f : Char → Char) : ∀ (l : List Char), (∀ c ∈ l, f c = c) → l.map f = l
  | [], _ => rfl
  | c :: rest, h => by
    simp only [List.map_cons]
    rw [h c (List.mem_cons_self c rest),
        map_fix f rest (fun d hd => h d (List.mem_cons_of_mem c hd))]

theorem collapseHyphens_head? : ∀ (l : List Char), (collapseHyphens l).head? = l.head?
  | [] => rfl
  | [_] => rfl
  | c₁ :: c₂ :: rest => by
    simp only [collapseHyphens]
    by_cases h : c₁ = '-' ∧ c₂ = '-'
    · rw [if_pos h, collapseHyphens_head? (c₂ :: rest)]
      simp [h.1, h.2]
    · rw [if_neg h]
      rfl

theorem mem_collapseHyphens : ∀ (l : List Char) (a : Char), a ∈ collapseHyphens l → a ∈ l
  | [], a => by simp [collapseHyphens]
  | [c], a => by simp [collapseHyphens]
  | c₁ :: c₂ :: rest, a => by
    simp only [collapseHyphens]
    by_cases h : c₁ = '-' ∧ c₂ = '-'
    · rw [if_pos h]
      intro ha
      exact List.mem_cons_of_mem _ (mem_collapseHyphens (c₂ :: rest) a ha)
    · rw [if_neg h]
      intro ha
      rcases List.mem_cons.mp ha with rfl | ha
      · exact List.mem_cons_self _ _
      · exact List.mem_cons_of_mem _ (mem_collapseHyphens (c₂ :: rest) a ha)

theorem noDouble_collapseHyphens : ∀ (l : List Char), noDoubleHyphen (collapseHyphens l)
  | [] => by simp [collapseHyphens, noDoubleHyphen]
  | [c] => by simp [collapseHyphens, noDoubleHyphen]
  | c₁ :: c₂ :: rest => by
    simp only [collapseHyphens]
    by_cases h : c₁ = '-' ∧ c₂ = '-'
    · rw [if_pos h]
      exact noDouble_collapseHyphens (c₂ :: rest)
    · rw [if_neg h]
      have ih := noDouble_collapseHyphens (c₂ :: rest)
      have hh := collapseHyphens_head? (c₂ :: rest)
      cases hc : collapseHyphens (c₂ :: rest) with
      | nil => simp [noDoubleHyphen]
      | cons d t =>
        rw [hc] at ih hh
        have hd : d = c₂ := by simpa using hh
        subst hd
        exact List.chain'_cons.mpr ⟨h, ih⟩

theorem collapseHyphens_of_noDouble : ∀ (l : List Char), noDoubleHyphen l → collapseHyphens l = l
  | [], _ => rfl
  | [_], _ => rfl
  | c₁ :: c₂ :: rest, h => by
    have h1 : ¬(c₁ = '-' ∧ c₂ = '-') := (List.chain'_cons.mp h).1
    have h2 : noDoubleHyphen (c₂ :: rest) := (List.chain'_cons.mp h).2
    simp only [collapseHyphens]
    rw [if_neg h1, collapseHyphens_of_noDouble (c₂ :: rest) h2]

theorem mem_stripLead {l : List Char} {a : Char} (h : a ∈ stripLead l) : a ∈ l := by
  cases l with
  | nil => simp [stripLead] at h
  | cons c rest =>
    simp only [stripLead] at h
    by_cases hc : c = '-'
    · rw [if_pos hc] at h
      exact List.mem_cons_of_mem _ h
    · rw [if_neg hc] at h
      exact h

theorem stripLead_of_head {l : List Char} (h : l.head? ≠ some '-') : stripLead l = l := by
  cases l with
  | nil => rfl
  | cons c rest =>
    simp only [stripLead]
    rw [if_neg]
    intro hc
    exact h (by simp [hc])

theorem head?_stripLead {l : List Char} (h : noDoubleHyphen l) : (stripLead l).head? ≠ some '-' := by
  cases l with
  | nil => simp [stripLead]
  | cons c rest =>
    simp only [stripLead]
    by_cases hc : c = '-'
    · rw [if_pos hc]
      cases rest with
      | nil => simp
      | cons d t =>
        have hr := (List.chain'_cons.mp h).1
        simp only [List.head?_cons, ne_eq, Option.some.injEq]
        intro hd
        exact hr ⟨hc, hd⟩
    · rw [if_neg hc]
      simp only [List.head?_cons, ne_eq, Option.some.injEq]
      exact hc

theorem getLast?_stripLead {l : List Char} (h : l.getLast? ≠ some '-') :
    (stripLead l).getLast? ≠ some '-' := by
  cases l with
  | nil => simp [stripLead]
  | cons c rest =>
    simp only [stripLead]
    by_cases hc : c = '-'
    · rw [if_pos hc]
      cases rest with
      | nil => simp
      | cons d t =>
        rw [List.getLast?_cons_cons] at h
        exact h
    · rw [if_neg hc]
      exact h

theorem noDouble_stripLead {l : List Char} (h : noDoubleHyphen l) : noDoubleHyphen (stripLead l) := by
  cases l with
  | nil => exact h
  | cons c rest =>
    simp only [stripLead]
    by_cases hc : c = '-'
    · rw [if_pos hc]
      exact h.tail
    · rw [if_neg hc]
      exact h

theorem noDouble_reverse {l : List Char} (h : noDoubleHyphen l) : noDoubleHyphen l.reverse := by
  unfold noDoubleHyphen at h ⊢
  rw [List.chain'_reverse]
  exact h.imp (fun a b hab => by
    intro hba
    exact hab ⟨hba.2, hba.1⟩)

theorem mem_stripTrail {l : List Char} {a : Char} (h : a ∈ stripTrail l) : a ∈ l := by
  unfold stripTrail at h
  rw [List.mem_reverse] at h
  have h2 := mem_stripLead h
  rwa [List.mem_reverse] at h2

theorem noDouble_stripTrail {l : List Char} (h : noDoubleHyphen l) : noDoubleHyphen (stripTrail l) :=
  noDouble_reverse (noDouble_stripLead (noDouble_reverse h))

theorem getLast?_stripTrail {l : List Char} (h : noDoubleHyphen l) :
    (stripTrail l).getLast? ≠ some '-' := by
  unfold stripTrail
  rw [List.getLast?_reverse]
  exact head?_stripLead (noDouble_reverse h)

theorem head?_stripTrail {l : List Char} (h : l.head? ≠ some '-') :
    (stripTrail l).head? ≠ some '-' := by
  unfold stripTrail
  rw [List.head?_reverse]
  apply getLast?_stripLead
  rw [List.getLast?_reverse]
  exact h

theorem stripTrail_of_getLast {l : List Char} (h : l.getLast? ≠ some '-') : stripTrail l = l := by
  unfold stripTrail
  have hr : l.reverse.head? ≠ some '-' := by
    rw [List.head?_reverse]
    exact h
  rw [stripLead_of_head hr, List.reverse_reverse]

theorem formatList_all {l : List Char} : ∀ c ∈ formatList l, isNameChar c = true := by
  intro c hc
  unfold formatList at hc
  have h1 := mem_stripLead (mem_stripTrail hc)
  have h2 := mem_collapseHyphens _ _ h1
  rcases List.mem_map.mp h2 with ⟨d, _, rfl⟩
  exact isNameChar_replaceNonNameChar (jsToLowerChar d)

theorem formatList_noDouble (l : List Char) : noDoubleHyphen (formatList l) :=
  noDouble_stripTrail (noDouble_stripLead (noDouble_collapseHyphens _))

theorem formatList_head? (l : List Char) : (formatList l).head? ≠ some '-' :=
  head?_stripTrail (head?_stripLead (noDouble_collapseHyphens _))

theorem formatList_getLast? (l : List Char) : (formatList l).getLast? ≠ some '-' :=
  getLast?_stripTrail (noDouble_stripLead (noDouble_collapseHyphens _))

theorem formatList_idem (l : List Char) : formatList (formatList l) = formatList l := by
  have hmap : (formatList l).map (fun c => replaceNonNameChar (jsToLowerChar c)) = formatList l :=
    map_fix _ _ (fun c hc => by
      rw [jsToLowerChar_fix (formatList_all c hc), replaceNonNameChar_fix (formatList_all c hc)])
  show stripTrail (stripLead (collapseHyphens
    ((formatList l).map (fun c => replaceNonNameChar (jsToLowerChar c))))) = formatList l
  rw [hmap, collapseHyphens_of_noDouble _ (formatList_noDouble l),
      stripLead_of_head (formatList_head? l), stripTrail_of_getLast (formatList_getLast? l)]

/-! ## Lemmas about the tag validator -/

theorem trimList_eq_nil_all_ws {l : List Char} (h : trimList l = []) :
    ∀ c ∈ l, isJsWhitespace c = true := by
  unfold trimList at h
  rw [List.reverse_eq_nil_iff, List.dropWhile_eq_nil_iff] at h
  have hd : ∀ c ∈ l.dropWhile isJsWhitespace, isJsWhitespace c = true := by
    intro c hc
    exact h c (List.mem_reverse.mpr hc)
  intro c hc
  rw [← List.takeWhile_append_dropWhile (p := isJsWhitespace) (l := l)] at hc
  rcases List.mem_append.mp hc with h1 | h2
  · exact List.mem_takeWhile_imp h1
  · exact hd c h2

theorem splitCommaList_no_comma : ∀ (l : List Char), (∀ c ∈ l, c ≠ ',') → splitCommaList l = [l]
  | [], _ => rfl
  | c :: rest, h => by
    have hr := splitCommaList_no_comma rest (fun d hd => h d (List.mem_cons_of_mem c hd))
    simp only [splitCommaList, hr]
    rw [if_neg (h c (List.mem_cons_self c rest))]

theorem isJsWhitespace_ne_comma {c : Char} (h : isJsWhitespace c = true) : c ≠ ',' := by
  intro hc
  rw [hc] at h
  exact absurd h (by decide)

theorem tagEntries_of_trim_empty {s : String} (h : jsTrim s = "") : tagEntries s = [] := by
  have hdata : trimList s.data = [] := congrArg String.data h
  have hws := trimList_eq_nil_all_ws hdata
  unfold tagEntries jsSplitComma
  rw [splitCommaList_no_comma s.data (fun c hc => isJsWhitespace_ne_comma (hws c hc))]
  simp only [List.map_cons, List.map_nil]
  have hs : (⟨s.data⟩ : String) = s := rfl
  rw [hs, h]
  rfl

theorem validateTags_none_iff (s : String) :
    validateTags s = none ↔ (tagEntries s).all tagFormatOk = true := by
  by_cases h : jsTrim s = ""
  · simp [validateTags, h, tagEntries_of_trim_empty h]
  · unfold validateTags
    rw [if_neg h]
    simp only []
    by_cases hi : ((tagEntries s).filter (fun t => !tagFormatOk t)).isEmpty
    · rw [if_pos hi]
      simp only [true_iff]
      rw [List.all_eq_true]
      intro a ha
      by_contra hb
      have hmem : a ∈ (tagEntries s).filter (fun t => !tagFormatOk t) := by
        rw [List.mem_filter]
        exact ⟨ha, by simpa using hb⟩
      rw [List.isEmpty_iff] at hi
      rw [hi] at hmem
      exact absurd hmem (List.not_mem_nil a)
    · rw [if_neg hi]
      constructor
      · intro hcontra
        exact absurd hcontra (by simp)
      · intro hall
        exfalso
        apply hi
        rw [List.isEmpty_iff, List.filter_eq_nil_iff]
        intro a ha
        simp [List.all_eq_true.mp hall a ha]

/-! ## Claim theorems -/

/-- C4: the name normalizer `formatSkillName` is idempotent and total:
for every string `s`, normalizing twice equals normalizing once, and the
result consists only of lowercase alphanumerics and hyphens, with no
leading hyphen, no trailing hyphen and no doubled hyphen. -/
theorem c4_normalizer_idempotent_total (s : String) :
    formatSkillName (formatSkillName s) = formatSkillName s ∧
    (formatSkillName s).data.all isNameChar = true ∧
    (formatSkillName s).data.head? ≠ some '-' ∧
    (formatSkillName s).data.getLast? ≠ some '-' ∧
    noDoubleHyphen (formatSkillName s).data := by
  refine ⟨?_, ?_, formatList_head? s.data, formatList_getLast? s.data, formatList_noDouble s.data⟩
  · show (⟨formatList (formatList s.data)⟩ : String) = ⟨formatList s.data⟩
    rw [formatList_idem]
  · exact List.all_eq_true.mpr (fun c hc => formatList_all c hc)

theorem c4_witness :
    formatSkillName "My New Process" = "my-new-process" ∧
    formatSkillName (formatSkillName "My New Process") = formatSkillName "My New Process" :=
  ⟨by rfl, (c4_normalizer_idempotent_total "My New Process").1⟩

/-- C7: `validateTags` accepts every input whose trim is empty; in
general it accepts exactly when every entry of the comma-split, trimmed,
empty-discarded entry list matches `[a-zA-Z0-9-]+`, and on the spec's
example it rejects naming exactly the entry `Bad Tag`. -/
theorem c7_validateTags_characterization :
    (∀ s : String,
      (jsTrim s = "" → validateTags s = none) ∧
      (validateTags s = none ↔ (tagEntries s).all tagFormatOk = true)) ∧
    validateTags "docs, automation, Bad Tag" =
      some "Invalid tags: Bad Tag. Use alphanumeric characters and hyphens only." := by
  constructor
  · intro s
    exact ⟨fun h => by simp [validateTags, h], validateTags_none_iff s⟩
  · rfl

theorem c7_witness :
    validateTags "   " = none ∧ validateTags "docs,automation" = none :=
  ⟨(c7_validateTags_characterization.1 "   ").1 (by rfl),
   (c7_validateTags_characterization.1 "docs,automation").2.mpr (by rfl)⟩

/-- C10: the tags input `docs,` passes `validateTags` (its validator
entry list discards the empty entry), yet the generate request actually
transmitted contains the empty-string entry `""`, because the
transmission path (SkillCreatorPage.tsx line 162) splits and trims but
never discards empty entries. -/
theorem c10_trailing_comma_transmits_empty_tag :
    validateTags "docs," = none ∧
    (handleGenerateSkill c10State (GenerateOutcome.ok ⟨"demo"⟩)).2 =
      some { analysisId := "a-10", skillName := "my-skill", skillType := ContentType.process,
             description := none, tags := some ["docs", ""] } ∧
    "" ∈ (["docs", ""] : List String) := by
  refine ⟨by rfl, by rfl, by simp⟩

/-- C1: the library page has no staleness guard in `loadSkills`: in the
interleaving where the fetch for search term `a` resolves after the
fetch for the newer term `ab`, the stale response overwrites the newer
query's results, so the final state shows the old query's result list
while `search` is `ab`.  This contradicts the spec's scenario D. -/
theorem c1_stale_fetch_clobbers :
    c1FinalState.search = "ab" ∧
    skillsQueryOf c1FinalState = c1FreshQuery ∧
    c1FinalState.skills = fetchStub c1StaleQuery ∧
    c1FinalState.skills ≠ fetchStub (skillsQueryOf c1FinalState) := by
  refine ⟨by rfl, by rfl, by rfl, by decide⟩

/-- C2 counterexample: from the analyzed/preview state (an
`AnalysisResult` is present), a failing re-analysis reports stage
`input`, not `preview`: `handleAnalyze` clears the stored analysis when
the call is issued, so the claim as stated is false. -/
theorem c2_counterexample :
    currentStep c2PreviewState = Step.preview ∧
    currentStep (handleAnalyze c2PreviewState (AnalyzeOutcome.err ⟨"", "", none⟩)).1 = Step.input ∧
    Step.input ≠ Step.preview := by
  refine ⟨by rfl, by rfl, by decide⟩

/-- C2 amended: a failing generate call leaves the reported stage equal
to the stage immediately before the call and records the error; a
failing analyze call also records an error, but reports stage `input`
(even for a re-analysis from analyzed/preview), because the stored
analysis is cleared when the analyze call is issued. -/
theorem c2_amended_failure_stage :
    (∀ (st : CreatorState) (m : String),
      (triggerGenerate st (GenerateOutcome.err m)).2 ≠ none →
        currentStep (triggerGenerate st (GenerateOutcome.err m)).1 = currentStep st ∧
        (triggerGenerate st (GenerateOutcome.err m)).1.error = orFallback m "Skill generation failed") ∧
    (∀ (st : CreatorState) (e : AxiosErr),
      (triggerAnalyze st (AnalyzeOutcome.err e)).2 ≠ none →
        currentStep (triggerAnalyze st (AnalyzeOutcome.err e)).1 = Step.input ∧
        (triggerAnalyze st (AnalyzeOutcome.err e)).1.error = analyzeErrorText e) := by
  constructor
  · intro st m h
    unfold triggerGenerate at h ⊢
    by_cases hd : generateDisabled st = true
    · rw [if_pos hd] at h
      exact absurd rfl h
    · rw [if_neg hd] at h ⊢
      have hg : st.isGenerating = false := by
        cases hg : st.isGenerating
        · rfl
        · exact absurd (by simp [generateDisabled, hg]) hd
      unfold handleGenerateSkill at h ⊢
      cases hA : st.analysisResult with
      | none => rw [hA] at h; exact absurd rfl h
      | some a =>
        rw [hA] at h
        cases hN : validateSkillName st.skillName with
        | some eN => rw [hN] at h; exact absurd rfl h
        | none =>
          rw [hN] at h
          cases hT : validateTags st.tags with
          | some eT => rw [hT] at h; exact absurd rfl h
          | none =>
            constructor
            · simp [currentStep, hA, hg]
            · rfl
  · intro st e h
    unfold triggerAnalyze at h ⊢
    by_cases hd : analyzeDisabled st = true
    · rw [if_pos hd] at h
      exact absurd rfl h
    · rw [if_neg hd] at h ⊢
      unfold handleAnalyze at h ⊢
      cases hC : validateContent st.content with
      | some eC => rw [hC] at h; exact absurd rfl h
      | none => exact ⟨rfl, rfl⟩

theorem c2_amended_witness :
    ((triggerGenerate c2GenFailState (GenerateOutcome.err "boom")).2 ≠ none ∧
      currentStep (triggerGenerate c2GenFailState (GenerateOutcome.err "boom")).1 =
        currentStep c2GenFailState ∧
      (triggerGenerate c2GenFailState (GenerateOutcome.err "boom")).1.error =
        orFallback "boom" "Skill generation failed") ∧
    ((triggerAnalyze c2PreviewState (AnalyzeOutcome.err ⟨"", "", some 500⟩)).2 ≠ none ∧
      currentStep (triggerAnalyze c2PreviewState (AnalyzeOutcome.err ⟨"", "", some 500⟩)).1 =
        Step.input ∧
      (triggerAnalyze c2PreviewState (AnalyzeOutcome.err ⟨"", "", some 500⟩)).1.error =
        analyzeErrorText ⟨"", "", some 500⟩) :=
  ⟨⟨by decide, c2_amended_failure_stage.1 c2GenFailState "boom" (by decide)⟩,
   ⟨by decide, c2_amended_failure_stage.2 c2PreviewState ⟨"", "", some 500⟩ (by decide)⟩⟩

/-- C3: while a call is in flight (its busy flag is true), re-triggering
the same action through its button is a no-op: the button's disabled
expression contains the busy flag, so no second request is issued and
the state is unchanged. -/
theorem c3_busy_flag_reentrancy :
    (∀ (st : CreatorState) (o : AnalyzeOutcome), st.isAnalyzing = true →
      triggerAnalyze st o = (st, none)) ∧
    (∀ (st : CreatorState) (o : GenerateOutcome), st.isGenerating = true →
      triggerGenerate st o = (st, none)) ∧
    (∀ (st : PublishFlowState) (o : PublishOutcome), st.isPublishing = true →
      triggerPublishSubmit st o = (st, none)) := by
  refine ⟨?_, ?_, ?_⟩
  · intro st o h
    have hd : analyzeDisabled st = true := by simp [analyzeDisabled, h]
    simp [triggerAnalyze, hd]
  · intro st o h
    have hd : generateDisabled st = true := by simp [generateDisabled, h]
    simp [triggerGenerate, hd]
  · intro st o h
    have hd : publishSubmitDisabled st = true := by simp [publishSubmitDisabled, h]
    simp [triggerPublishSubmit, hd]

theorem c3_witness :
    triggerAnalyze c3StateA (AnalyzeOutcome.ok ⟨"a-new"⟩) = (c3StateA, none) ∧
    triggerGenerate c3StateG (GenerateOutcome.err "boom") = (c3StateG, none) ∧
    triggerPublishSubmit c3StateP PublishOutcome.ok = (c3StateP, none) :=
  ⟨c3_busy_flag_reentrancy.1 c3StateA _ rfl,
   c3_busy_flag_reentrancy.2.1 c3StateG _ rfl,
   c3_busy_flag_reentrancy.2.2 c3StateP _ rfl⟩

/-- C5: whenever the generate call is issued and succeeds, the success
message is set and the workflow state is reset to its input defaults:
content, skill name, description and tags empty, content type back to
`process`, analysis cleared, and all field errors cleared. -/
theorem c5_generate_success_resets (st : CreatorState) (r : GenResult)
    (h : (handleGenerateSkill st (GenerateOutcome.ok r)).2 ≠ none) :
    (handleGenerateSkill st (GenerateOutcome.ok r)).1.content = "" ∧
    (handleGenerateSkill st (GenerateOutcome.ok r)).1.skillName = "" ∧
    (handleGenerateSkill st (GenerateOutcome.ok r)).1.description = "" ∧
    (handleGenerateSkill st (GenerateOutcome.ok r)).1.tags = "" ∧
    (handleGenerateSkill st (GenerateOutcome.ok r)).1.contentType = ContentType.process ∧
    (handleGenerateSkill st (GenerateOutcome.ok r)).1.analysisResult = none ∧
    (handleGenerateSkill st (GenerateOutcome.ok r)).1.validationErrors = FieldErrors.empty ∧
    (handleGenerateSkill st (GenerateOutcome.ok r)).1.success =
      "Skill \"" ++ r.skillName ++ "\" created successfully! Click to view in library." := by
  unfold handleGenerateSkill at h ⊢
  cases hA : st.analysisResult with
  | none => rw [hA] at h; exact absurd rfl h
  | some a =>
    rw [hA] at h
    cases hN : validateSkillName st.skillName with
    | some eN => rw [hN] at h; exact absurd rfl h
    | none =>
      rw [hN] at h
      cases hT : validateTags st.tags with
      | some eT => rw [hT] at h; exact absurd rfl h
      | none => exact ⟨rfl, rfl, rfl, rfl, rfl, rfl, rfl, rfl⟩

theorem c5_witness :
    (handleGenerateSkill c5State (GenerateOutcome.ok ⟨"demo-skill"⟩)).2 ≠ none ∧
    ((handleGenerateSkill c5State (GenerateOutcome.ok ⟨"demo-skill"⟩)).1.content = "" ∧
     (handleGenerateSkill c5State (GenerateOutcome.ok ⟨"demo-skill"⟩)).1.skillName = "" ∧
     (handleGenerateSkill c5State (GenerateOutcome.ok ⟨"demo-skill"⟩)).1.description = "" ∧
     (handleGenerateSkill c5State (GenerateOutcome.ok ⟨"demo-skill"⟩)).1.tags = "" ∧
     (handleGenerateSkill c5State (GenerateOutcome.ok ⟨"demo-skill"⟩)).1.contentType = ContentType.process ∧
     (handleGenerateSkill c5State (GenerateOutcome.ok ⟨"demo-skill"⟩)).1.analysisResult = none ∧
     (handleGenerateSkill c5State (GenerateOutcome.ok ⟨"demo-skill"⟩)).1.validationErrors = FieldErrors.empty ∧
     (handleGenerateSkill c5State (GenerateOutcome.ok ⟨"demo-skill"⟩)).1.success =
       "Skill \"" ++ "demo-skill" ++ "\" created successfully! Click to view in library.") :=
  ⟨by decide, c5_generate_success_resets c5State ⟨"demo-skill"⟩ (by decide)⟩

/-- C6: whenever the generate call is issued and fails, the form is not
reset: content, content type, skill name, description, tags and the
stored analysis result keep their pre-call values; the error message is
set from the failure, the busy flag ends cleared (and the pre-call
clearing of the field-error record stands). -/
theorem c6_generate_failure_keeps_form (st : CreatorState) (m : String)
    (h : (handleGenerateSkill st (GenerateOutcome.err m)).2 ≠ none) :
    (handleGenerateSkill st (GenerateOutcome.err m)).1.content = st.content ∧
    (handleGenerateSkill st (GenerateOutcome.err m)).1.contentType = st.contentType ∧
    (handleGenerateSkill st (GenerateOutcome.err m)).1.skillName = st.skillName ∧
    (handleGenerateSkill st (GenerateOutcome.err m)).1.description = st.description ∧
    (handleGenerateSkill st (GenerateOutcome.err m)).1.tags = st.tags ∧
    (handleGenerateSkill st (GenerateOutcome.err m)).1.analysisResult = st.analysisResult ∧
    (handleGenerateSkill st (GenerateOutcome.err m)).1.success = st.success ∧
    (handleGenerateSkill st (GenerateOutcome.err m)).1.error = orFallback m "Skill generation failed" ∧
    (handleGenerateSkill st (GenerateOutcome.err m)).1.isGenerating = false ∧
    (handleGenerateSkill st (GenerateOutcome.err m)).1.validationErrors = FieldErrors.empty := by
  unfold handleGenerateSkill at h ⊢
  cases hA : st.analysisResult with
  | none => rw [hA] at h; exact absurd rfl h
  | some a =>
    rw [hA] at h
    cases hN : validateSkillName st.skillName with
    | some eN => rw [hN] at h; exact absurd rfl h
    | none =>
      rw [hN] at h
      cases hT : validateTags st.tags with
      | some eT => rw [hT] at h; exact absurd rfl h
      | none => exact ⟨rfl, rfl, rfl, rfl, rfl, rfl, rfl, rfl, rfl, rfl⟩

theorem c6_witness :
    (handleGenerateSkill c6State (GenerateOutcome.err "")).2 ≠ none ∧
    ((handleGenerateSkill c6State (GenerateOutcome.err "")).1.content = c6State.content ∧
     (handleGenerateSkill c6State (GenerateOutcome.err "")).1.contentType = c6State.contentType ∧
     (handleGenerateSkill c6State (GenerateOutcome.err "")).1.skillName = c6State.skillName ∧
     (handleGenerateSkill c6State (GenerateOutcome.err "")).1.description = c6State.description ∧
     (handleGenerateSkill c6State (GenerateOutcome.err "")).1.tags = c6State.tags ∧
     (handleGenerateSkill c6State (GenerateOutcome.err "")).1.analysisResult = c6State.analysisResult ∧
     (handleGenerateSkill c6State (GenerateOutcome.err "")).1.success = c6State.success ∧
     (handleGenerateSkill c6State (GenerateOutcome.err "")).1.error =
       orFallback "" "Skill generation failed" ∧
     (handleGenerateSkill c6State (GenerateOutcome.err "")).1.isGenerating = false ∧
     (handleGenerateSkill c6State (GenerateOutcome.err "")).1.validationErrors = FieldErrors.empty) :=
  ⟨by decide, c6_generate_failure_keeps_form c6State "" (by decide)⟩

/-- C8: a publish submission whose trimmed credential is empty is
rejected locally with the empty-credential alert before any network
call: no request is issued and the modal's open flag is unchanged. -/
theorem c8_empty_credential_rejected (st : PublishFlowState) (o : PublishOutcome)
    (h : jsTrim st.githubToken = "") :
    (handleSubmit st o).2 = none ∧
    (handleSubmit st o).1.publishModalOpen = st.publishModalOpen ∧
    (handleSubmit st o).1.alertMessage = some "Please enter a GitHub personal access token" := by
  unfold handleSubmit
  rw [if_pos h]
  exact ⟨rfl, rfl, rfl⟩

theorem c8_witness :
    (handleSubmit c8State PublishOutcome.ok).2 = none ∧
    (handleSubmit c8State PublishOutcome.ok).1.publishModalOpen = c8State.publishModalOpen ∧
    (handleSubmit c8State PublishOutcome.ok).1.alertMessage =
      some "Please enter a GitHub personal access token" :=
  c8_empty_credential_rejected c8State PublishOutcome.ok (by rfl)

/-- C9: whenever a publish submission issues its external call, the
credential is cleared to empty after the call resolves, on success and
on failure alike (the page's publish handler never rethrows, so the
modal's clearing step always runs), and closing the modal also clears
the credential unconditionally. -/
theorem c9_credential_cleared (st : PublishFlowState) (o : PublishOutcome) :
    ((handleSubmit st o).2 ≠ none → (handleSubmit st o).1.githubToken = "") ∧
    (handleCloseModal st).githubToken = "" ∧
    (handleCloseModal st).publishModalOpen = false := by
  refine ⟨?_, rfl, rfl⟩
  intro h
  unfold handleSubmit at h ⊢
  by_cases ht : jsTrim st.githubToken = ""
  · rw [if_pos ht] at h
    exact absurd rfl h
  · rw [if_neg ht] at h ⊢
    cases hs : st.selectedSkillId with
    | none => rfl
    | some skillId =>
      cases o with
      | ok => rfl
      | err m => rfl

theorem c9_witness :
    (handleSubmit c9State (PublishOutcome.err "remote says no")).1.githubToken = "" ∧
    (handleCloseModal c9State).githubToken = "" :=
  ⟨(c9_credential_cleared c9State (PublishOutcome.err "remote says no")).1 (by decide),
   (c9_credential_cleared c9State (PublishOutcome.err "remote says no")).2.1⟩

end SkillsFactory
